import Mathlib

/-!
# A shallow embedding of the `latex2svg` conversion pipeline

This file models `latex2svg.py` (the `latex2svg` function and its helper
definitions) in Lean 4 and proves properties of the model.

Modelling conventions:

* Python real numbers (floats) are idealised as rationals `ℚ`; the float
  literal `1.00375` is the rational `100375/100000`, `round(x, 6)` is decimal
  round-half-to-even at six digits, and `%f` / `:.6f` formatting is fixed
  six-digit decimal formatting.
* The two `re.search` calls are modelled exactly: leftmost match, `\b` word
  boundaries, greedy character classes (`[0-9.]+` resp. `[0-9.e-]+`) followed
  by literal text.  Because the literal text that follows each class starts
  with a character outside the class, the greedy match is the maximal run of
  class characters, with no residual backtracking.
* `float(...)` is `pyFloat`, a partial parse returning `Option ℚ` (Python
  raises `ValueError` on a parse failure).
* External processes (`latex`, `dvisvgm`, `scour`, `svgo`) are oracles: a
  `World` value gives each invocation's outcome (`FileNotFoundError` or an
  exit with captured stdout/stderr) and the artifacts the tools would write.
* The pipeline returns a `PipeOut`: the `Except` result together with an
  observable trace — the subprocess invocations (command string and the
  environment passed), the files written by the Python code itself, and the
  (unchanged) `os.environ` and `params` threaded through, so that absence of
  mutation and absence of further invocations are statable.
* The lxml parse/serialize round trip is abstracted by `SvgDoc` (comments,
  root attributes, content): parsing with `remove_comments=True` drops the
  comments, `svg.set` updates the root attribute list, and reading the file
  back as text yields `serializeSvg` of the stored document.
-/

/-! ## Word boundaries and character classes of the two regexes -/

/-- The class `\w` of Python's `re` (restricted to ASCII, which is what the dvisvgm
diagnostics contain): letters, digits, underscore. -/
def isWordChar (c : Char) : Bool := c.isAlphanum || c = '_'

/-- The assertion `\b` at a position whose preceding character is `prev` (`none` at the start
of the string) and whose current character is `c`. -/
def wordBoundary (prev : Option Char) (c : Char) : Bool :=
  isWordChar c != (match prev with | none => false | some q => isWordChar q)

/-- The character class `[0-9.]` of the size regex. -/
def digitDot (c : Char) : Bool := c.isDigit || c = '.'

/-- The character class `[0-9.e-]` of the measure regex. -/
def depthClass (c : Char) : Bool := c.isDigit || c = '.' || c = 'e' || c = '-'

/-- One attempt of `\b([0-9.]+)pt x ([0-9.]+)pt` anchored at the current
position (`s` is the remaining input, `prev` the character before it). -/
def sizeMatchHere (prev : Option Char) (s : List Char) : Option (List Char × List Char) :=
  match s with
  | [] => none
  | c :: _ =>
    if wordBoundary prev c then
      let g1 := s.takeWhile digitDot
      let r1 := s.drop g1.length
      if g1 ≠ [] ∧ ("pt x ".data).isPrefixOf r1 then
        let r1b := r1.drop 5
        let g2 := r1b.takeWhile digitDot
        let r2 := r1b.drop g2.length
        if g2 ≠ [] ∧ ("pt".data).isPrefixOf r2 then some (g1, g2) else none
      else none
    else none

/-- The `re.search` loop of the size regex: try every position, leftmost match wins. -/
def searchSizeAux (prev : Option Char) : List Char → Option (List Char × List Char)
  | [] => none
  | c :: rest =>
    match sizeMatchHere prev (c :: rest) with
    | some g => some g
    | none => searchSizeAux (some c) rest

/-- One attempt of `\bNAME=([0-9.e-]+)pt` anchored at the current position;
`lit` is the literal `NAME=` part. -/
def measureMatchHere (lit : List Char) (prev : Option Char) (s : List Char) : Option (List Char) :=
  match lit with
  | [] => none
  | c :: _ =>
    if wordBoundary prev c ∧ lit.isPrefixOf s then
      let rest := s.drop lit.length
      let g := rest.takeWhile depthClass
      let r2 := rest.drop g.length
      if g ≠ [] ∧ ("pt".data).isPrefixOf r2 then some g else none
    else none

/-- The `re.search` loop of the measure regex. -/
def searchMeasureAux (lit : List Char) (prev : Option Char) : List Char → Option (List Char)
  | [] => none
  | c :: rest =>
    match measureMatchHere lit prev (c :: rest) with
    | some g => some g
    | none => searchMeasureAux lit (some c) rest

/-! ## Python `float()` on the matched tokens -/

/-- Decimal digits to a natural number. -/
def digitsToNat (l : List Char) : ℕ :=
  l.foldl (fun a c => 10 * a + (c.toNat - 48)) 0

/-- Python's `float(s)` on the token strings the two regexes can produce:
optional sign, integer and/or fractional digits, optional exponent.
`none` models a raised `ValueError`. -/
def pyFloat (s : List Char) : Option ℚ :=
  let sgn : ℚ := if s.head? = some '-' then -1 else 1
  let s1 : List Char := if s.head? = some '-' ∨ s.head? = some '+' then s.tail else s
  let ip := s1.takeWhile Char.isDigit
  let r1 := s1.drop ip.length
  let fp : List Char := if r1.head? = some '.' then r1.tail.takeWhile Char.isDigit else []
  let r2 : List Char := if r1.head? = some '.' then r1.tail.drop fp.length else r1
  let mant : ℚ := (digitsToNat ip : ℚ) + (digitsToNat fp : ℚ) / (10 : ℚ) ^ fp.length
  if ip = [] ∧ fp = [] then none
  else
    match r2 with
    | [] => some (sgn * mant)
    | e :: r3 =>
      if e = 'e' ∨ e = 'E' then
        let esgn : ℤ := if r3.head? = some '-' then -1 else 1
        let r4 : List Char := if r3.head? = some '-' ∨ r3.head? = some '+' then r3.tail else r3
        let ed := r4.takeWhile Char.isDigit
        if ed ≠ [] ∧ r4.drop ed.length = [] then
          some (sgn * mant * (10 : ℚ) ^ (esgn * (digitsToNat ed : ℤ)))
        else none
      else none

/-! ## Unit conversion (`get_size` / `get_measure`) -/

/-- The constant `scaling = 1.00375` of the source: TeX pt (1/72.27 in) to DTP pt (1/72 in). -/
def scaling : ℚ := 100375 / 100000

/-- The conversion arithmetic applied to every raw measurement:
`float(...) / fontsize * scaling` (source lines 186–187 and 195). -/
def convert (fontsize raw : ℚ) : ℚ := raw / fontsize * scaling

/-- The failure modes the Python code can raise. -/
inductive PyError where
  /-- The `RuntimeError('<tool> not found')`, raised on `FileNotFoundError`. -/
  | runtimeError (msg : String)
  /-- The `subprocess.CalledProcessError` from `check_returncode()`: carries the
  command, the exit status and the captured stdout/stderr unchanged. -/
  | calledProcessError (cmd : String) (returncode : Int) (stdout stderr : String)
  /-- The `TypeError` raised by `f'{None:.6f}'` when `get_size` found no match. -/
  | typeError
  /-- The `ValueError` raised by `float()` on an unparsable token. -/
  | valueError (arg : String)
deriving DecidableEq

deriving instance DecidableEq for Except

/-- The parser `get_size` (source lines 182–189): search the diagnostic stream for the
size token and convert both numbers. -/
def get_size (fontsize : ℚ) (output : String) : Except PyError (Option ℚ × Option ℚ) :=
  match searchSizeAux none output.data with
  | none => .ok (none, none)
  | some (g1, g2) =>
    match pyFloat g1 with
    | none => .error (.valueError (String.mk g1))
    | some r1 =>
      match pyFloat g2 with
      | none => .error (.valueError (String.mk g2))
      | some r2 => .ok (some (convert fontsize r1), some (convert fontsize r2))

/-- The parser `get_measure` (source lines 191–197): search for `NAME=...pt` and convert;
`none` when the token is absent. -/
def get_measure (fontsize : ℚ) (output : String) (name : String) : Except PyError (Option ℚ) :=
  match searchMeasureAux (name ++ "=").data none output.data with
  | none => .ok none
  | some g =>
    match pyFloat g with
    | none => .error (.valueError (String.mk g))
    | some r => .ok (some (convert fontsize r))

/-! ## Rounding and fixed-point formatting -/

/-- Round-half-to-even to an integer (Python's `round`). -/
def roundHalfEven (q : ℚ) : ℤ :=
  if q - ⌊q⌋ < 1/2 then ⌊q⌋
  else if 1/2 < q - ⌊q⌋ then ⌊q⌋ + 1
  else if ⌊q⌋ % 2 = 0 then ⌊q⌋ else ⌊q⌋ + 1

/-- Python's `round(x, 6)`. -/
def round6 (q : ℚ) : ℚ := (roundHalfEven (q * 1000000) : ℚ) / 1000000

/-- Zero-pad a natural number to six digits. -/
def pad6 (m : ℕ) : String :=
  let s := toString m
  String.mk (List.replicate (6 - s.length) '0') ++ s

/-- Fixed six-decimal formatting: Python's `f'{x:.6f}'` and `'%f' % x`. -/
def fmt6 (q : ℚ) : String :=
  let n := roundHalfEven (q * 1000000)
  (if n < 0 then "-" else "") ++ toString (n.natAbs / 1000000) ++ "." ++ pad6 (n.natAbs % 1000000)

/-! ## Python `str.replace` and the Document Assembler -/

/-- Fuel-based worker for `replList` (the fuel only makes the recursion
structural; `replList` always supplies enough of it). -/
def replListF (pat rep : List Char) : ℕ → List Char → List Char
  | _, [] => []
  | 0, s => s
  | fuel + 1, c :: rest =>
    if pat ≠ [] ∧ pat.isPrefixOf (c :: rest) then
      rep ++ replListF pat rep fuel (List.drop pat.length (c :: rest))
    else
      c :: replListF pat rep fuel rest

/-- Python's `str.replace(pat, rep)` on character lists: replace every
non-overlapping occurrence, scanning left to right.  (Python additionally
interleaves `rep` everywhere when `pat` is empty; the pipeline only ever
replaces the non-empty placeholder markers, for which this agrees.) -/
def replList (pat rep s : List Char) : List Char :=
  replListF pat rep s.length s

/-- Whether `pat` occurs as a contiguous substring. -/
def occursList (pat : List Char) : List Char → Bool
  | [] => pat.isPrefixOf []
  | c :: rest => pat.isPrefixOf (c :: rest) || occursList pat rest

/-- Python `str.replace` on strings. -/
def pyReplace (s pat rep : String) : String := ⟨replList pat.data rep.data s.data⟩

/-- The placeholder `{{ preamble }}`. -/
def markPre : String := "\x7b\x7b preamble \x7d\x7d"

/-- The placeholder `{{ fontsize }}`. -/
def markFs : String := "\x7b\x7b fontsize \x7d\x7d"

/-- The placeholder `{{ code }}`. -/
def markCode : String := "\x7b\x7b code \x7d\x7d"

/-- The placeholder `{{ prefix }}`. -/
def markPfx : String := "\x7b\x7b prefix \x7d\x7d"

/-- The placeholder `{{ infile }}`. -/
def markIn : String := "\x7b\x7b infile \x7d\x7d"

/-- The placeholder `{{ outfile }}`. -/
def markOutf : String := "\x7b\x7b outfile \x7d\x7d"

/-- The Document Assembler (source lines 148–151): three chained
`str.replace` calls, in the order preamble, fontsize, code. -/
def assemble (template preamble fontsizeStr code : String) : String :=
  pyReplace (pyReplace (pyReplace template markPre preamble) markFs fontsizeStr) markCode code

/-- Replace only the first occurrence (used to state what "substituting each
named placeholder exactly once" would mean, for comparison with `replList`). -/
def replFirstList (pat rep : List Char) : List Char → List Char
  | [] => []
  | c :: rest =>
    if pat ≠ [] ∧ pat.isPrefixOf (c :: rest) then rep ++ List.drop pat.length (c :: rest)
    else c :: replFirstList pat rep rest

/-- Modelled from the spec: "produce a single document string by substituting
each named placeholder in the template exactly once" — an assembler that
substitutes each placeholder at most at its first occurrence, for comparison
with the source's `assemble`. -/
def assembleOnce (template preamble fontsizeStr code : String) : String :=
  ⟨replFirstList markCode.data code.data
    (replFirstList markFs.data fontsizeStr.data
      (replFirstList markPre.data preamble.data template.data))⟩

/-! ## The SVG document model and metadata injection -/

/-- Abstraction of the lxml document: comment nodes, the root element's
attributes (in document order) and the rest of the content. -/
structure SvgDoc where
  comments : List String
  attrs : List (String × String)
  content : String
deriving DecidableEq

/-- Update an association list at a key, or append (both `dict.__setitem__`
on the copied environment and lxml's `Element.set`). -/
def updateAssoc : List (String × String) → String → String → List (String × String)
  | [], k, v => [(k, v)]
  | (k', v') :: rest, k, v =>
    if k' = k then (k, v) :: rest else (k', v') :: updateAssoc rest k v

/-- Look up an attribute. -/
def getAttr (attrs : List (String × String)) (k : String) : Option String :=
  (attrs.find? (fun a => a.1 = k)).map Prod.snd

/-- The metadata-injection step (source lines 209–214): parse discarding
comments, then set `width`, `height` and `style` on the root element. -/
def injectSvg (raw : SvgDoc) (wv hv depth : ℚ) : SvgDoc :=
  let parsed : SvgDoc := { raw with comments := [] }
  { parsed with
    attrs :=
      updateAssoc
        (updateAssoc (updateAssoc parsed.attrs "width" (fmt6 wv ++ "em"))
          "height" (fmt6 hv ++ "em"))
        "style" ("vertical-align:" ++ fmt6 (-depth) ++ "em") }

/-- Serialization of the abstract document back to file text (`xml.write`,
and what a later plain-text read of the file returns). -/
def serializeSvg (d : SvgDoc) : String :=
  String.join (d.comments.map (fun c => "<!--" ++ c ++ "-->")) ++
    "<svg" ++ String.join (d.attrs.map (fun a => " " ++ a.1 ++ "=\x22" ++ a.2 ++ "\x22")) ++
    ">" ++ d.content ++ "</svg>"

/-! ## The random identifier prefix -/

/-- The alphabet `string.ascii_letters`. -/
def asciiLetters : List Char :=
  "abcdefghijklmnopqrstuvwxyzABCDEFGHIJKLMNOPQRSTUVWXYZ".data

/-- The expression `''.join(random.choice(string.ascii_letters) for n in range(3))`
(source line 220), with the three random draws supplied as an oracle. -/
def genPfx (choice : Fin 3 → Fin 52) : String :=
  ⟨[asciiLetters.getD (choice 0).val 'a',
    asciiLetters.getD (choice 1).val 'a',
    asciiLetters.getD (choice 2).val 'a']⟩

/-! ## Default command templates of the source -/

/-- The default `scour_cmd` (source lines 87–89). -/
def scour_cmd : String :=
  "scour --shorten-ids --shorten-ids-prefix=\x22\x7b\x7b prefix \x7d\x7d\x22 --no-line-breaks --remove-metadata --enable-comment-stripping --strip-xml-prolog -i \x7b\x7b infile \x7d\x7d -o \x7b\x7b outfile \x7d\x7d"

/-- The default `svgo_cmd` (source line 83). -/
def svgo_cmd : String := "svgo -i \x7b\x7b infile \x7d\x7d -o \x7b\x7b outfile \x7d\x7d"

/-- The default `default_svgo_config` (source lines 58–79). -/
def default_svgo_config : String :=
  "\nmodule.exports = \x7b\n  plugins: [\n    \x7b\n      // use default preset (almost)\n      name: \x27preset-default\x27,\n      params: \x7b\n        overrides: \x7b\n          // viewbox required to resize SVGs with CSS, disable removal\n          removeViewBox: false,\n        \x7d,\n      \x7d,\n      // enable prefixIds\n      name: \x27prefixIds\x27,\n      params: \x7b\n        prefix: \x27\x7b\x7b prefix \x7d\x7d\x27,\n        delim: \x27_\x27,\n      \x7d,\n    \x7d,\n  ],\n\x7d;\n"

/-! ## Conversion parameters, tool oracles and the pipeline trace -/

/-- The `params` dictionary (the ConversionParameters bundle). -/
structure Params where
  fontsize : ℚ
  template : String
  preamble : String
  latex_cmd : String
  dvisvgm_cmd : String
  scale : ℚ
  svgo_cmd : String
  svgo_config : String
  scour_cmd : String
  optimizer : String
  libgs : Option String
deriving DecidableEq

/-- Outcome of trying to start one external tool. -/
inductive ToolOutcome where
  /-- The executable is absent: `subprocess.run` raises `FileNotFoundError`. -/
  | notFound
  /-- The tool ran and exited with this status and captured streams. -/
  | exited (returncode : Int) (stdout stderr : String)
deriving DecidableEq

/-- One attempted subprocess invocation: the command string and the
environment passed (`none` = inherit the host environment). -/
structure ToolRun where
  cmd : String
  envPassed : Option (List (String × String))
deriving DecidableEq

/-- Oracle for everything the external world contributes to one call:
each tool's outcome, the raw SVG dvisvgm writes, the text each optimizer
writes, and the three random draws for the identifier prefix. -/
structure World where
  latexOutcome : ToolOutcome
  dvisvgmOutcome : ToolOutcome
  rawSvg : SvgDoc
  scourOutcome : ToolOutcome
  scourOutput : String
  svgoOutcome : ToolOutcome
  svgoOutput : String
  pfxChoice : Fin 3 → Fin 52

/-- The dictionary `latex2svg` returns on success. -/
structure ConvResult where
  svg : String
  valign : ℚ
  width : ℚ
  height : ℚ
deriving DecidableEq

/-- The pipeline's observable behaviour: result, attempted subprocess
invocations in order, files written by the Python code itself (name,
content) in order, and the `os.environ` / `params` threaded through
(so that an embedding of a mutation would be visible). -/
structure PipeOut where
  result : Except PyError ConvResult
  runs : List ToolRun
  writes : List (String × String)
  osEnvFinal : List (String × String)
  paramsFinal : Params
deriving DecidableEq

/-- Build a `PipeOut`; every exit path returns the host environment and the
params bundle unchanged, as the Python code never assigns to either. -/
def mkOut (osEnv : List (String × String)) (p : Params) (res : Except PyError ConvResult)
    (runs : List ToolRun) (writes : List (String × String)) : PipeOut :=
  { result := res, runs := runs, writes := writes, osEnvFinal := osEnv, paramsFinal := p }

/-- The copy `env = os.environ.copy(); if params['libgs']: env['LIBGS'] = params['libgs']`
(source lines 166–168; the `if` is Python truthiness, so an empty string is
not injected). -/
def libgsEnv (p : Params) (osEnv : List (String × String)) : List (String × String) :=
  match p.libgs with
  | none => osEnv
  | some g => if g = "" then osEnv else updateAssoc osEnv "LIBGS" g

/-- The substituted svgo command (source lines 221–223). -/
def buildSvgoCmd (p : Params) : String :=
  pyReplace (pyReplace p.svgo_cmd markIn "code.svg") markOutf "optimized.svg"

/-- The substituted svgo configuration (source lines 224–225): the bare
prefix is substituted into the config template. -/
def buildSvgoConfig (p : Params) (pfx : String) : String :=
  pyReplace p.svgo_config markPfx pfx

/-- The substituted scour command (source lines 227–230): the prefix gets an
underscore appended before substitution. -/
def buildScourCmd (p : Params) (pfx : String) : String :=
  pyReplace (pyReplace (pyReplace p.scour_cmd markPfx (pfx ++ "_")) markIn "code.svg")
    markOutf "optimized.svg"

/-- The optimizer stage (source lines 232–265): result text, invocations and
file writes of this stage.  Any selector other than `"scour"` and `"svgo"`
takes the final `else` branch and reads `code.svg` back as-is. -/
def optimizerBranch (p : Params) (env : List (String × String)) (w : World)
    (injectedText : String) (pfx : String) :
    Except PyError String × List ToolRun × List (String × String) :=
  if p.optimizer = "scour" then
    match w.scourOutcome with
    | .notFound =>
      (.error (.runtimeError "scour not found"), [⟨buildScourCmd p pfx, some env⟩], [])
    | .exited rc o e =>
      if rc ≠ 0 then
        (.error (.calledProcessError (buildScourCmd p pfx) rc o e),
          [⟨buildScourCmd p pfx, some env⟩], [])
      else (.ok w.scourOutput, [⟨buildScourCmd p pfx, some env⟩], [])
  else if p.optimizer = "svgo" then
    match w.svgoOutcome with
    | .notFound =>
      (.error (.runtimeError "svgo not found"), [⟨buildSvgoCmd p, some env⟩],
        [("svgo.config.js", buildSvgoConfig p pfx)])
    | .exited rc o e =>
      if rc ≠ 0 then
        (.error (.calledProcessError (buildSvgoCmd p) rc o e), [⟨buildSvgoCmd p, some env⟩],
          [("svgo.config.js", buildSvgoConfig p pfx)])
      else
        (.ok w.svgoOutput, [⟨buildSvgoCmd p, some env⟩],
          [("svgo.config.js", buildSvgoConfig p pfx)])
  else (.ok injectedText, [], [])

/-- The conversion pipeline `latex2svg(code, params)` (source lines 116–268),
run with an explicit working directory (the `working_directory=None` entry
point only wraps this same flow in a scoped temporary directory). -/
def latex2svg (code : String) (p : Params) (osEnv : List (String × String)) (w : World) :
    PipeOut :=
  let document := assemble p.template p.preamble (toString p.fontsize) code
  let w0 := [("code.tex", document)]
  let latexRun : ToolRun := ⟨p.latex_cmd ++ " code.tex", none⟩
  match w.latexOutcome with
  | .notFound => mkOut osEnv p (.error (.runtimeError "latex not found")) [latexRun] w0
  | .exited rc out err =>
    if rc ≠ 0 then
      mkOut osEnv p (.error (.calledProcessError (p.latex_cmd ++ " code.tex") rc out err))
        [latexRun] w0
    else
      let env := libgsEnv p osEnv
      let dvisvgmCmdS := p.dvisvgm_cmd ++ " --scale=" ++ fmt6 p.scale ++ " code.dvi"
      let dvisvgmRun : ToolRun := ⟨dvisvgmCmdS, some env⟩
      match w.dvisvgmOutcome with
      | .notFound =>
        mkOut osEnv p (.error (.runtimeError "dvisvgm not found")) [latexRun, dvisvgmRun] w0
      | .exited rc2 out2 err2 =>
        if rc2 ≠ 0 then
          mkOut osEnv p (.error (.calledProcessError dvisvgmCmdS rc2 out2 err2))
            [latexRun, dvisvgmRun] w0
        else
          match get_size p.fontsize err2 with
          | .error ex => mkOut osEnv p (.error ex) [latexRun, dvisvgmRun] w0
          | .ok (wOpt, hOpt) =>
            match get_measure p.fontsize err2 "depth" with
            | .error ex => mkOut osEnv p (.error ex) [latexRun, dvisvgmRun] w0
            | .ok dOpt =>
              let depth := dOpt.getD 0
              match wOpt, hOpt with
              | some wv, some hv =>
                let injected := injectSvg w.rawSvg wv hv depth
                let w1 := w0 ++ [("code.svg", serializeSvg injected)]
                let pfx := genPfx w.pfxChoice
                match optimizerBranch p env w (serializeSvg injected) pfx with
                | (res, oruns, owrites) =>
                  match res with
                  | .error ex =>
                    mkOut osEnv p (.error ex) ([latexRun, dvisvgmRun] ++ oruns) (w1 ++ owrites)
                  | .ok svgText =>
                    mkOut osEnv p
                      (.ok ⟨svgText, round6 (-depth), round6 wv, round6 hv⟩)
                      ([latexRun, dvisvgmRun] ++ oruns) (w1 ++ owrites)
              | _, _ => mkOut osEnv p (.error .typeError) [latexRun, dvisvgmRun] w0

/-- The value of `valign` in a pipeline result, when the call succeeded. -/
def resValign (o : PipeOut) : Option ℚ :=
  match o.result with
  | .ok r => some r.valign
  | .error _ => none

/-- The failure kinds realising the spec's MeasurementParseFailure: the
unhandled `TypeError` / `ValueError` raised while the measurements are being
parsed or first used, as opposed to a missing executable (`runtimeError`) or
a tool failure (`calledProcessError`). -/
def isParseCrash : PyError → Bool
  | .typeError => true
  | .valueError _ => true
  | _ => false

/-- Whether the pipeline failed with a measurement-parsing failure. -/
def resultParseCrash (o : PipeOut) : Bool :=
  match o.result with
  | .error e => isParseCrash e
  | .ok _ => false

/-! ## Helper lemmas about `replList` -/

theorem replListF_nil (pat rep : List Char) (f : ℕ) : replListF pat rep f [] = [] := by
  cases f <;> rfl

theorem replListF_irrel (pat rep : List Char) :
    ∀ f1 f2 (s : List Char), s.length ≤ f1 → s.length ≤ f2 →
      replListF pat rep f1 s = replListF pat rep f2 s := by
  intro f1
  induction f1 with
  | zero =>
    intro f2 s hs1 _
    have hnil : s = [] := List.length_eq_zero.mp (Nat.le_zero.mp hs1)
    subst hnil
    rw [replListF_nil, replListF_nil]
  | succ f ih =>
    intro f2 s hs1 hs2
    match s with
    | [] => rw [replListF_nil, replListF_nil]
    | c :: rest =>
      match f2 with
      | 0 => simp at hs2
      | g + 1 =>
        rw [replListF, replListF]
        by_cases h : pat ≠ [] ∧ pat.isPrefixOf (c :: rest)
        · rw [if_pos h, if_pos h]
          have hp : 0 < pat.length := List.length_pos.mpr h.1
          have hlen : (List.drop pat.length (c :: rest)).length ≤ f := by
            simp only [List.length_drop, List.length_cons]
            simp only [List.length_cons] at hs1
            omega
          have hlen2 : (List.drop pat.length (c :: rest)).length ≤ g := by
            simp only [List.length_drop, List.length_cons]
            simp only [List.length_cons] at hs2
            omega
          rw [ih _ _ hlen hlen2]
        · rw [if_neg h, if_neg h]
          have h1 : rest.length ≤ f := by simp only [List.length_cons] at hs1; omega
          have h2 : rest.length ≤ g := by simp only [List.length_cons] at hs2; omega
          rw [ih _ _ h1 h2]

theorem replList_nil (pat rep : List Char) : replList pat rep [] = [] := rfl

theorem replList_cons_pos {pat : List Char} (rep : List Char) {c : Char} {rest : List Char}
    (h1 : pat ≠ []) (h2 : pat.isPrefixOf (c :: rest)) :
    replList pat rep (c :: rest) = rep ++ replList pat rep (List.drop pat.length (c :: rest)) := by
  show replListF pat rep (c :: rest).length (c :: rest) = _
  rw [show (c :: rest).length = rest.length + 1 from rfl, replListF, if_pos ⟨h1, h2⟩]
  have hp : 0 < pat.length := List.length_pos.mpr h1
  congr 1
  apply replListF_irrel
  · simp only [List.length_drop, List.length_cons]; omega
  · exact Nat.le_refl _

theorem replList_cons_neg {pat : List Char} (rep : List Char) {c : Char} {rest : List Char}
    (h : ¬ (pat ≠ [] ∧ pat.isPrefixOf (c :: rest))) :
    replList pat rep (c :: rest) = c :: replList pat rep rest := by
  show replListF pat rep (c :: rest).length (c :: rest) = _
  rw [show (c :: rest).length = rest.length + 1 from rfl, replListF, if_neg h]
  rfl

theorem replList_no_occurs {pat : List Char} (rep : List Char) :
    ∀ {s : List Char}, occursList pat s = false → replList pat rep s = s := by
  intro s
  induction s with
  | nil => intro _; rfl
  | cons c rest ih =>
    intro h
    rw [occursList, Bool.or_eq_false_iff] at h
    rw [replList_cons_neg rep (fun hc => by rw [h.1] at hc; exact Bool.false_ne_true hc.2)]
    rw [ih h.2]

theorem replList_at_match {pat : List Char} (rep : List Char) (hp : pat ≠ []) :
    ∀ (r : List Char), replList pat rep (pat ++ r) = rep ++ replList pat rep r := by
  intro r
  match pat, hp with
  | pc :: pt, _ =>
    have hpre : (pc :: pt).isPrefixOf (pc :: (pt ++ r)) := by
      rw [← List.cons_append]
      exact List.isPrefixOf_iff_prefix.mpr ( List.prefix_append _ _)
    rw [List.cons_append, replList_cons_pos rep (by simp) hpre]
    congr 1
    rw [show pc :: (pt ++ r) = (pc :: pt) ++ r from rfl, List.drop_left]

theorem replList_split {pat : List Char} (rep : List Char) (hp : pat ≠ []) :
    ∀ (l r : List Char),
      (∀ i, i < l.length → pat.isPrefixOf ((l ++ pat ++ r).drop i) = false) →
      replList pat rep (l ++ pat ++ r) = l ++ rep ++ replList pat rep r := by
  intro l
  induction l with
  | nil =>
    intro r _
    rw [List.nil_append, replList_at_match rep hp r, List.nil_append]
  | cons x l' ih =>
    intro r h
    have h0 : pat.isPrefixOf (x :: (l' ++ pat ++ r)) = false := by
      have h00 := h 0 (Nat.succ_pos _)
      simpa using h00
    have hni : ¬ (pat ≠ [] ∧ pat.isPrefixOf (x :: (l' ++ pat ++ r)) = true) := by
      intro hc
      rw [h0] at hc
      exact Bool.false_ne_true hc.2
    have hrec := ih r (fun i hi => by
      simpa using h (i + 1) (by simp only [List.length_cons]; omega))
    calc replList pat rep ((x :: l') ++ pat ++ r)
        = replList pat rep (x :: (l' ++ pat ++ r)) := by simp only [List.cons_append]
      _ = x :: replList pat rep (l' ++ pat ++ r) := replList_cons_neg rep hni
      _ = x :: (l' ++ rep ++ replList pat rep r) := by rw [hrec]
      _ = (x :: l') ++ rep ++ replList pat rep r := by simp only [List.cons_append]

theorem replList_append_left {pat : List Char} (rep : List Char) {c0 : Char}
    (hh : pat.head? = some c0) :
    ∀ (a b : List Char), c0 ∉ a → replList pat rep (a ++ b) = a ++ replList pat rep b := by
  intro a
  induction a with
  | nil => intro b _; rfl
  | cons x a' ih =>
    intro b hx
    have hxc : c0 ≠ x := fun he => hx (by rw [he]; exact List.mem_cons_self _ _)
    have hpre : pat.isPrefixOf (x :: (a' ++ b)) = false := by
      match pat, hh with
      | pc :: pt, hh =>
        have hpc : pc = c0 := by simpa using hh
        apply Bool.eq_false_iff.mpr
        intro hc
        have hpp := List.isPrefixOf_iff_prefix.mp hc
        rw [List.cons_prefix_cons] at hpp
        exact hxc (hpc.symm.trans hpp.1)
    simp only [List.cons_append]
    rw [replList_cons_neg rep
      (fun hc => by rw [hpre] at hc; exact Bool.false_ne_true hc.2)]
    rw [ih b (fun hm => hx (List.mem_cons_of_mem _ hm))]

/-! ## Helper lemmas about the measurement extractor -/

theorem mem_takeWhile {p : Char → Bool} :
    ∀ {l : List Char} {a : Char}, a ∈ l.takeWhile p → p a = true := by
  intro l
  induction l with
  | nil => intro a ha; simp [List.takeWhile] at ha
  | cons x xs ih =>
    intro a ha
    rw [List.takeWhile_cons] at ha
    by_cases hp : p x
    · rw [if_pos hp] at ha
      rcases List.mem_cons.mp ha with h1 | h2
      · rw [h1]; exact hp
      · exact ih h2
    · rw [if_neg hp] at ha
      simp at ha

theorem sizeMatchHere_classes {prev : Option Char} {s g1 g2 : List Char}
    (h : sizeMatchHere prev s = some (g1, g2)) :
    (∀ c ∈ g1, digitDot c = true) ∧ (∀ c ∈ g2, digitDot c = true) := by
  match s with
  | [] => simp [sizeMatchHere] at h
  | c :: rest =>
    simp only [sizeMatchHere] at h
    split at h
    · split at h
      · split at h
        · rcases Option.some.inj h with hpair
          have h1 := congrArg Prod.fst hpair
          have h2 := congrArg Prod.snd hpair
          simp only at h1 h2
          constructor
          · intro a ha; exact mem_takeWhile (h1 ▸ ha)
          · intro a ha; exact mem_takeWhile (h2 ▸ ha)
        · exact absurd h (by simp)
      · exact absurd h (by simp)
    · exact absurd h (by simp)

theorem searchSizeAux_classes :
    ∀ (s : List Char) (prev : Option Char) {g1 g2 : List Char},
      searchSizeAux prev s = some (g1, g2) →
      (∀ c ∈ g1, digitDot c = true) ∧ (∀ c ∈ g2, digitDot c = true) := by
  intro s
  induction s with
  | nil => intro prev g1 g2 h; simp [searchSizeAux] at h
  | cons c rest ih =>
    intro prev g1 g2 h
    rw [searchSizeAux] at h
    cases hm : sizeMatchHere prev (c :: rest) with
    | some g =>
      rw [hm] at h
      cases g with
      | mk a b =>
        rcases Option.some.inj h with hpair
        have h1 := congrArg Prod.fst hpair
        have h2 := congrArg Prod.snd hpair
        simp only at h1 h2
        subst h1; subst h2
        exact sizeMatchHere_classes hm
    | none =>
      rw [hm] at h
      exact ih (some c) h

theorem measureMatchHere_classes {lit : List Char} {prev : Option Char} {s g : List Char}
    (h : measureMatchHere lit prev s = some g) : ∀ c ∈ g, depthClass c = true := by
  match lit with
  | [] => simp [measureMatchHere] at h
  | c :: lt =>
    simp only [measureMatchHere] at h
    split at h
    · split at h
      · rcases Option.some.inj h with hg
        intro a ha
        exact mem_takeWhile (hg ▸ ha)
      · exact absurd h (by simp)
    · exact absurd h (by simp)

theorem searchMeasureAux_classes :
    ∀ (s : List Char) (lit : List Char) (prev : Option Char) {g : List Char},
      searchMeasureAux lit prev s = some g → ∀ c ∈ g, depthClass c = true := by
  intro s
  induction s with
  | nil => intro lit prev g h; simp [searchMeasureAux] at h
  | cons c rest ih =>
    intro lit prev g h
    rw [searchMeasureAux] at h
    cases hm : measureMatchHere lit prev (c :: rest) with
    | some g' =>
      rw [hm] at h
      rcases Option.some.inj h with hg
      subst hg
      exact measureMatchHere_classes hm
    | none =>
      rw [hm] at h
      exact ih lit (some c) h

theorem pyFloat_nonneg {s : List Char} {r : ℚ}
    (hs : s.head? ≠ some '-') (h : pyFloat s = some r) : 0 ≤ r := by
  simp only [pyFloat] at h
  rw [if_neg hs] at h
  set s1 := if s.head? = some '-' ∨ s.head? = some '+' then s.tail else s with hs1
  set ip := s1.takeWhile Char.isDigit with hip
  set r1 := s1.drop ip.length with hr1
  set fp := (if r1.head? = some '.' then r1.tail.takeWhile Char.isDigit else []) with hfp
  set r2 := (if r1.head? = some '.' then r1.tail.drop fp.length else r1) with hr2
  set mant : ℚ := (digitsToNat ip : ℚ) + (digitsToNat fp : ℚ) / (10 : ℚ) ^ fp.length
    with hmant
  have hm : (0 : ℚ) ≤ mant := by
    rw [hmant]
    positivity
  clear_value mant r2 fp r1 ip s1
  repeat' split at h
  all_goals
    first
    | (rcases Option.some.inj h with hr
       rw [← hr, one_mul]
       exact hm)
    | (rcases Option.some.inj h with hr
       rw [← hr, one_mul]
       exact mul_nonneg hm (le_of_lt (zpow_pos (by norm_num) _)))
    | simp at h

theorem roundHalfEven_nonneg {q : ℚ} (h : 0 ≤ q) : 0 ≤ roundHalfEven q := by
  have hf : (0 : ℤ) ≤ ⌊q⌋ := Int.floor_nonneg.mpr h
  unfold roundHalfEven
  repeat' split
  all_goals omega

theorem round6_nonneg {q : ℚ} (h : 0 ≤ q) : 0 ≤ round6 q := by
  unfold round6
  have := roundHalfEven_nonneg (q := q * 1000000) (by positivity)
  positivity

theorem round6_denom (q : ℚ) : ∃ n : ℤ, round6 q = (n : ℚ) / 1000000 :=
  ⟨roundHalfEven (q * 1000000), rfl⟩

theorem convert_nonneg {fs r : ℚ} (hfs : 0 < fs) (hr : 0 ≤ r) : 0 ≤ convert fs r := by
  unfold convert scaling
  positivity

theorem get_size_ok_inv {fs : ℚ} {out : String} {wv hv : ℚ}
    (h : get_size fs out = .ok (some wv, some hv)) :
    ∃ g1 g2 r1 r2, searchSizeAux none out.data = some (g1, g2) ∧ pyFloat g1 = some r1 ∧
      pyFloat g2 = some r2 ∧ wv = convert fs r1 ∧ hv = convert fs r2 := by
  unfold get_size at h
  split at h
  · exact absurd h (by simp)
  · rename_i g1 g2 heq
    split at h
    · exact absurd h (by simp)
    · rename_i r1 h1
      split at h
      · exact absurd h (by simp)
      · rename_i r2 h2
        simp only [Except.ok.injEq, Prod.mk.injEq, Option.some.injEq] at h
        exact ⟨g1, g2, r1, r2, heq, h1, h2, h.1.symm, h.2.symm⟩

theorem get_size_nonneg {fs : ℚ} {out : String} {wv hv : ℚ} (hfs : 0 < fs)
    (h : get_size fs out = .ok (some wv, some hv)) : 0 ≤ wv ∧ 0 ≤ hv := by
  obtain ⟨g1, g2, r1, r2, hse, h1, h2, hw, hh⟩ := get_size_ok_inv h
  have hcls := searchSizeAux_classes out.data none hse
  have hg1 : g1.head? ≠ some '-' := by
    intro hc
    cases g1 with
    | nil => simp at hc
    | cons a t =>
      have := hcls.1 a (List.mem_cons_self _ _)
      rw [show a = '-' from by simpa using hc] at this
      simp [digitDot] at this
  have hg2 : g2.head? ≠ some '-' := by
    intro hc
    cases g2 with
    | nil => simp at hc
    | cons a t =>
      have := hcls.2 a (List.mem_cons_self _ _)
      rw [show a = '-' from by simpa using hc] at this
      simp [digitDot] at this
  constructor
  · rw [hw]; exact convert_nonneg hfs (pyFloat_nonneg hg1 h1)
  · rw [hh]; exact convert_nonneg hfs (pyFloat_nonneg hg2 h2)

theorem get_measure_ok_inv {fs : ℚ} {out name : String} {dv : ℚ}
    (h : get_measure fs out name = .ok (some dv)) :
    ∃ g r0, searchMeasureAux (name ++ "=").data none out.data = some g ∧
      pyFloat g = some r0 ∧ dv = convert fs r0 := by
  unfold get_measure at h
  split at h
  · exact absurd h (by simp)
  · rename_i g heq
    split at h
    · exact absurd h (by simp)
    · rename_i r0 h1
      simp only [Except.ok.injEq, Option.some.injEq] at h
      exact ⟨g, r0, heq, h1, h.symm⟩

theorem get_measure_none {fs : ℚ} {out name : String}
    (h : searchMeasureAux (name ++ "=").data none out.data = none) :
    get_measure fs out name = .ok none := by
  unfold get_measure
  rw [h]

theorem get_size_none {fs : ℚ} {out : String}
    (h : searchSizeAux none out.data = none) : get_size fs out = .ok (none, none) := by
  unfold get_size
  rw [h]

theorem getAttr_updateAssoc (l : List (String × String)) (k v : String) :
    getAttr (updateAssoc l k v) k = some v := by
  induction l with
  | nil => simp [updateAssoc, getAttr, List.find?]
  | cons a rest ih =>
    cases a with
    | mk a1 a2 =>
      unfold updateAssoc
      by_cases hk : a1 = k
      · rw [if_pos hk]
        simp [getAttr, List.find?]
      · rw [if_neg hk]
        unfold getAttr at ih ⊢
        rw [List.find?_cons_of_neg _ (by simpa using hk)]
        exact ih

/-! ## Evaluation lemmas for the pipeline under fixed stage outcomes -/

theorem latex2svg_none_eval (code : String) (p : Params) (osEnv : List (String × String))
    (w : World) (lo le o e : String) (wv hv : ℚ) (dOpt : Option ℚ)
    (hL : w.latexOutcome = .exited 0 lo le)
    (hD : w.dvisvgmOutcome = .exited 0 o e)
    (hS : get_size p.fontsize e = .ok (some wv, some hv))
    (hM : get_measure p.fontsize e "depth" = .ok dOpt)
    (hO : p.optimizer = "none") :
    latex2svg code p osEnv w = mkOut osEnv p
      (.ok ⟨serializeSvg (injectSvg w.rawSvg wv hv (dOpt.getD 0)),
        round6 (-(dOpt.getD 0)), round6 wv, round6 hv⟩)
      [⟨p.latex_cmd ++ " code.tex", none⟩,
        ⟨p.dvisvgm_cmd ++ " --scale=" ++ fmt6 p.scale ++ " code.dvi", some (libgsEnv p osEnv)⟩]
      [("code.tex", assemble p.template p.preamble (toString p.fontsize) code),
        ("code.svg", serializeSvg (injectSvg w.rawSvg wv hv (dOpt.getD 0)))] := by
  simp [latex2svg, hL, hD, hS, hM, optimizerBranch, hO]

theorem latex2svg_scour_eval (code : String) (p : Params) (osEnv : List (String × String))
    (w : World) (lo le o e so se : String) (wv hv : ℚ) (dOpt : Option ℚ)
    (hL : w.latexOutcome = .exited 0 lo le)
    (hD : w.dvisvgmOutcome = .exited 0 o e)
    (hS : get_size p.fontsize e = .ok (some wv, some hv))
    (hM : get_measure p.fontsize e "depth" = .ok dOpt)
    (hO : p.optimizer = "scour")
    (hSc : w.scourOutcome = .exited 0 so se) :
    latex2svg code p osEnv w = mkOut osEnv p
      (.ok ⟨w.scourOutput, round6 (-(dOpt.getD 0)), round6 wv, round6 hv⟩)
      [⟨p.latex_cmd ++ " code.tex", none⟩,
        ⟨p.dvisvgm_cmd ++ " --scale=" ++ fmt6 p.scale ++ " code.dvi", some (libgsEnv p osEnv)⟩,
        ⟨buildScourCmd p (genPfx w.pfxChoice), some (libgsEnv p osEnv)⟩]
      [("code.tex", assemble p.template p.preamble (toString p.fontsize) code),
        ("code.svg", serializeSvg (injectSvg w.rawSvg wv hv (dOpt.getD 0)))] := by
  simp [latex2svg, hL, hD, hS, hM, optimizerBranch, hO, hSc]

theorem latex2svg_svgo_eval (code : String) (p : Params) (osEnv : List (String × String))
    (w : World) (lo le o e so se : String) (wv hv : ℚ) (dOpt : Option ℚ)
    (hL : w.latexOutcome = .exited 0 lo le)
    (hD : w.dvisvgmOutcome = .exited 0 o e)
    (hS : get_size p.fontsize e = .ok (some wv, some hv))
    (hM : get_measure p.fontsize e "depth" = .ok dOpt)
    (hO : p.optimizer = "svgo")
    (hSv : w.svgoOutcome = .exited 0 so se) :
    latex2svg code p osEnv w = mkOut osEnv p
      (.ok ⟨w.svgoOutput, round6 (-(dOpt.getD 0)), round6 wv, round6 hv⟩)
      [⟨p.latex_cmd ++ " code.tex", none⟩,
        ⟨p.dvisvgm_cmd ++ " --scale=" ++ fmt6 p.scale ++ " code.dvi", some (libgsEnv p osEnv)⟩,
        ⟨buildSvgoCmd p, some (libgsEnv p osEnv)⟩]
      [("code.tex", assemble p.template p.preamble (toString p.fontsize) code),
        ("code.svg", serializeSvg (injectSvg w.rawSvg wv hv (dOpt.getD 0))),
        ("svgo.config.js", buildSvgoConfig p (genPfx w.pfxChoice))] := by
  simp [latex2svg, hL, hD, hS, hM, optimizerBranch, hO, hSv]

theorem latex2svg_latexNotFound_eval (code : String) (p : Params)
    (osEnv : List (String × String)) (w : World)
    (hL : w.latexOutcome = .notFound) :
    latex2svg code p osEnv w = mkOut osEnv p (.error (.runtimeError "latex not found"))
      [⟨p.latex_cmd ++ " code.tex", none⟩]
      [("code.tex", assemble p.template p.preamble (toString p.fontsize) code)] := by
  simp [latex2svg, hL]

theorem latex2svg_latexFail_eval (code : String) (p : Params)
    (osEnv : List (String × String)) (w : World) (rc : Int) (out err : String)
    (hL : w.latexOutcome = .exited rc out err) (hrc : rc ≠ 0) :
    latex2svg code p osEnv w = mkOut osEnv p
      (.error (.calledProcessError (p.latex_cmd ++ " code.tex") rc out err))
      [⟨p.latex_cmd ++ " code.tex", none⟩]
      [("code.tex", assemble p.template p.preamble (toString p.fontsize) code)] := by
  simp [latex2svg, hL, hrc]

theorem latex2svg_dvisvgmNotFound_eval (code : String) (p : Params)
    (osEnv : List (String × String)) (w : World) (lo le : String)
    (hL : w.latexOutcome = .exited 0 lo le)
    (hD : w.dvisvgmOutcome = .notFound) :
    latex2svg code p osEnv w = mkOut osEnv p (.error (.runtimeError "dvisvgm not found"))
      [⟨p.latex_cmd ++ " code.tex", none⟩,
        ⟨p.dvisvgm_cmd ++ " --scale=" ++ fmt6 p.scale ++ " code.dvi", some (libgsEnv p osEnv)⟩]
      [("code.tex", assemble p.template p.preamble (toString p.fontsize) code)] := by
  simp [latex2svg, hL, hD]

theorem latex2svg_dvisvgmFail_eval (code : String) (p : Params)
    (osEnv : List (String × String)) (w : World) (lo le : String) (rc : Int) (out err : String)
    (hL : w.latexOutcome = .exited 0 lo le)
    (hD : w.dvisvgmOutcome = .exited rc out err) (hrc : rc ≠ 0) :
    latex2svg code p osEnv w = mkOut osEnv p
      (.error (.calledProcessError (p.dvisvgm_cmd ++ " --scale=" ++ fmt6 p.scale ++ " code.dvi")
        rc out err))
      [⟨p.latex_cmd ++ " code.tex", none⟩,
        ⟨p.dvisvgm_cmd ++ " --scale=" ++ fmt6 p.scale ++ " code.dvi", some (libgsEnv p osEnv)⟩]
      [("code.tex", assemble p.template p.preamble (toString p.fontsize) code)] := by
  simp [latex2svg, hL, hD, hrc]

theorem latex2svg_sizeError_eval (code : String) (p : Params)
    (osEnv : List (String × String)) (w : World) (lo le o e : String) (ex : PyError)
    (hL : w.latexOutcome = .exited 0 lo le)
    (hD : w.dvisvgmOutcome = .exited 0 o e)
    (hS : get_size p.fontsize e = .error ex) :
    latex2svg code p osEnv w = mkOut osEnv p (.error ex)
      [⟨p.latex_cmd ++ " code.tex", none⟩,
        ⟨p.dvisvgm_cmd ++ " --scale=" ++ fmt6 p.scale ++ " code.dvi", some (libgsEnv p osEnv)⟩]
      [("code.tex", assemble p.template p.preamble (toString p.fontsize) code)] := by
  simp [latex2svg, hL, hD, hS]

theorem latex2svg_measureError_eval (code : String) (p : Params)
    (osEnv : List (String × String)) (w : World) (lo le o e : String)
    (wOpt hOpt : Option ℚ) (ex : PyError)
    (hL : w.latexOutcome = .exited 0 lo le)
    (hD : w.dvisvgmOutcome = .exited 0 o e)
    (hS : get_size p.fontsize e = .ok (wOpt, hOpt))
    (hM : get_measure p.fontsize e "depth" = .error ex) :
    latex2svg code p osEnv w = mkOut osEnv p (.error ex)
      [⟨p.latex_cmd ++ " code.tex", none⟩,
        ⟨p.dvisvgm_cmd ++ " --scale=" ++ fmt6 p.scale ++ " code.dvi", some (libgsEnv p osEnv)⟩]
      [("code.tex", assemble p.template p.preamble (toString p.fontsize) code)] := by
  simp [latex2svg, hL, hD, hS, hM]

theorem latex2svg_noSize_eval (code : String) (p : Params)
    (osEnv : List (String × String)) (w : World) (lo le o e : String) (dOpt : Option ℚ)
    (hL : w.latexOutcome = .exited 0 lo le)
    (hD : w.dvisvgmOutcome = .exited 0 o e)
    (hS : get_size p.fontsize e = .ok (none, none))
    (hM : get_measure p.fontsize e "depth" = .ok dOpt) :
    latex2svg code p osEnv w = mkOut osEnv p (.error .typeError)
      [⟨p.latex_cmd ++ " code.tex", none⟩,
        ⟨p.dvisvgm_cmd ++ " --scale=" ++ fmt6 p.scale ++ " code.dvi", some (libgsEnv p osEnv)⟩]
      [("code.tex", assemble p.template p.preamble (toString p.fontsize) code)] := by
  simp [latex2svg, hL, hD, hS, hM]

theorem latex2svg_scourNotFound_eval (code : String) (p : Params)
    (osEnv : List (String × String)) (w : World) (lo le o e : String) (wv hv : ℚ)
    (dOpt : Option ℚ)
    (hL : w.latexOutcome = .exited 0 lo le)
    (hD : w.dvisvgmOutcome = .exited 0 o e)
    (hS : get_size p.fontsize e = .ok (some wv, some hv))
    (hM : get_measure p.fontsize e "depth" = .ok dOpt)
    (hO : p.optimizer = "scour")
    (hSc : w.scourOutcome = .notFound) :
    latex2svg code p osEnv w = mkOut osEnv p (.error (.runtimeError "scour not found"))
      [⟨p.latex_cmd ++ " code.tex", none⟩,
        ⟨p.dvisvgm_cmd ++ " --scale=" ++ fmt6 p.scale ++ " code.dvi", some (libgsEnv p osEnv)⟩,
        ⟨buildScourCmd p (genPfx w.pfxChoice), some (libgsEnv p osEnv)⟩]
      [("code.tex", assemble p.template p.preamble (toString p.fontsize) code),
        ("code.svg", serializeSvg (injectSvg w.rawSvg wv hv (dOpt.getD 0)))] := by
  simp [latex2svg, hL, hD, hS, hM, optimizerBranch, hO, hSc]

theorem latex2svg_scourFail_eval (code : String) (p : Params)
    (osEnv : List (String × String)) (w : World) (lo le o e : String) (rc : Int)
    (so se : String) (wv hv : ℚ) (dOpt : Option ℚ)
    (hL : w.latexOutcome = .exited 0 lo le)
    (hD : w.dvisvgmOutcome = .exited 0 o e)
    (hS : get_size p.fontsize e = .ok (some wv, some hv))
    (hM : get_measure p.fontsize e "depth" = .ok dOpt)
    (hO : p.optimizer = "scour")
    (hSc : w.scourOutcome = .exited rc so se) (hrc : rc ≠ 0) :
    latex2svg code p osEnv w = mkOut osEnv p
      (.error (.calledProcessError (buildScourCmd p (genPfx w.pfxChoice)) rc so se))
      [⟨p.latex_cmd ++ " code.tex", none⟩,
        ⟨p.dvisvgm_cmd ++ " --scale=" ++ fmt6 p.scale ++ " code.dvi", some (libgsEnv p osEnv)⟩,
        ⟨buildScourCmd p (genPfx w.pfxChoice), some (libgsEnv p osEnv)⟩]
      [("code.tex", assemble p.template p.preamble (toString p.fontsize) code),
        ("code.svg", serializeSvg (injectSvg w.rawSvg wv hv (dOpt.getD 0)))] := by
  simp [latex2svg, hL, hD, hS, hM, optimizerBranch, hO, hSc, hrc]

theorem latex2svg_svgoNotFound_eval (code : String) (p : Params)
    (osEnv : List (String × String)) (w : World) (lo le o e : String) (wv hv : ℚ)
    (dOpt : Option ℚ)
    (hL : w.latexOutcome = .exited 0 lo le)
    (hD : w.dvisvgmOutcome = .exited 0 o e)
    (hS : get_size p.fontsize e = .ok (some wv, some hv))
    (hM : get_measure p.fontsize e "depth" = .ok dOpt)
    (hO : p.optimizer = "svgo")
    (hSv : w.svgoOutcome = .notFound) :
    latex2svg code p osEnv w = mkOut osEnv p (.error (.runtimeError "svgo not found"))
      [⟨p.latex_cmd ++ " code.tex", none⟩,
        ⟨p.dvisvgm_cmd ++ " --scale=" ++ fmt6 p.scale ++ " code.dvi", some (libgsEnv p osEnv)⟩,
        ⟨buildSvgoCmd p, some (libgsEnv p osEnv)⟩]
      [("code.tex", assemble p.template p.preamble (toString p.fontsize) code),
        ("code.svg", serializeSvg (injectSvg w.rawSvg wv hv (dOpt.getD 0))),
        ("svgo.config.js", buildSvgoConfig p (genPfx w.pfxChoice))] := by
  simp [latex2svg, hL, hD, hS, hM, optimizerBranch, hO, hSv]

theorem latex2svg_svgoFail_eval (code : String) (p : Params)
    (osEnv : List (String × String)) (w : World) (lo le o e : String) (rc : Int)
    (so se : String) (wv hv : ℚ) (dOpt : Option ℚ)
    (hL : w.latexOutcome = .exited 0 lo le)
    (hD : w.dvisvgmOutcome = .exited 0 o e)
    (hS : get_size p.fontsize e = .ok (some wv, some hv))
    (hM : get_measure p.fontsize e "depth" = .ok dOpt)
    (hO : p.optimizer = "svgo")
    (hSv : w.svgoOutcome = .exited rc so se) (hrc : rc ≠ 0) :
    latex2svg code p osEnv w = mkOut osEnv p
      (.error (.calledProcessError (buildSvgoCmd p) rc so se))
      [⟨p.latex_cmd ++ " code.tex", none⟩,
        ⟨p.dvisvgm_cmd ++ " --scale=" ++ fmt6 p.scale ++ " code.dvi", some (libgsEnv p osEnv)⟩,
        ⟨buildSvgoCmd p, some (libgsEnv p osEnv)⟩]
      [("code.tex", assemble p.template p.preamble (toString p.fontsize) code),
        ("code.svg", serializeSvg (injectSvg w.rawSvg wv hv (dOpt.getD 0))),
        ("svgo.config.js", buildSvgoConfig p (genPfx w.pfxChoice))] := by
  simp [latex2svg, hL, hD, hS, hM, optimizerBranch, hO, hSv, hrc]

theorem latex2svg_ok_inv {code : String} {p : Params} {osEnv : List (String × String)}
    {w : World} {r : ConvResult} (h : (latex2svg code p osEnv w).result = .ok r) :
    ∃ (lo le o e : String) (wv hv : ℚ) (dOpt : Option ℚ),
      w.latexOutcome = .exited 0 lo le ∧ w.dvisvgmOutcome = .exited 0 o e ∧
      get_size p.fontsize e = .ok (some wv, some hv) ∧
      get_measure p.fontsize e "depth" = .ok dOpt ∧
      r.valign = round6 (-(dOpt.getD 0)) ∧ r.width = round6 wv ∧ r.height = round6 hv ∧
      ("code.svg", serializeSvg (injectSvg w.rawSvg wv hv (dOpt.getD 0))) ∈
        (latex2svg code p osEnv w).writes := by
  unfold latex2svg at h
  split at h
  case _ hL => simp [mkOut] at h
  case _ rc lo le hL =>
    split at h
    · simp [mkOut] at h
    · rename_i hrc
      have hrc0 : rc = 0 := by omega
      subst hrc0
      split at h
      case _ hD => simp [mkOut] at h
      case _ rc2 o e hD =>
        split at h
        · simp [mkOut] at h
        · rename_i hrc2
          have hrc20 : rc2 = 0 := by omega
          subst hrc20
          split at h
          case _ ex hS => simp [mkOut] at h
          case _ wOpt hOpt hS =>
            split at h
            case _ ex hM => simp [mkOut] at h
            case _ dOpt hM =>
              split at h
              case _ wv hv =>
                simp only [] at h
                split at h
                case _ ex hres => simp [mkOut] at h
                case _ svgText hres =>
                  simp only [mkOut, Except.ok.injEq] at h
                  exact ⟨lo, le, o, e, wv, hv, dOpt, hL, hD, hS, hM,
                    by rw [← h], by rw [← h], by rw [← h],
                    by simp [latex2svg, hL, hD, hS, hM, hres, mkOut]⟩
              case _ h1 h2 => simp [mkOut] at h

/-! ## Miscellaneous helper lemmas -/

theorem string_data_append (a b : String) : (a ++ b).data = a.data ++ b.data := by
  cases a; cases b; rfl

theorem string_eq_of_data {a b : String} (h : a.data = b.data) : a = b := by
  cases a; cases b; exact congrArg String.mk h

theorem round6_zero : round6 0 = 0 := by
  unfold round6 roundHalfEven
  norm_num

theorem get_measure_error_inv {fs : ℚ} {out name : String} {ex : PyError}
    (h : get_measure fs out name = .error ex) : ∃ a, ex = .valueError a := by
  unfold get_measure at h
  split at h
  · exact absurd h (by simp)
  · split at h
    · simp only [Except.error.injEq] at h
      exact ⟨_, h.symm⟩
    · exact absurd h (by simp)

theorem genPfx_alpha (choice : Fin 3 → Fin 52) :
    ∀ c ∈ (genPfx choice).data, c.isAlpha = true := by
  have hall : ∀ i : Fin 52, (asciiLetters.getD i.val 'a').isAlpha = true := by decide
  intro c hc
  simp only [genPfx, List.mem_cons, List.not_mem_nil, or_false] at hc
  rcases hc with h | h | h <;> rw [h] <;> exact hall _

theorem genPfx_not_digit (choice : Fin 3 → Fin 52) :
    ∀ c ∈ (genPfx choice).data, c.isDigit = false := by
  have hall : ∀ i : Fin 52, (asciiLetters.getD i.val 'a').isDigit = false := by decide
  intro c hc
  simp only [genPfx, List.mem_cons, List.not_mem_nil, or_false] at hc
  rcases hc with h | h | h <;> rw [h] <;> exact hall _

/-! ## Concrete fixtures used by witnesses and counterexamples -/

/-- Toy conversion parameters with the repository's default commands. -/
def fixParams : Params :=
  { fontsize := 12, template := "T", preamble := "P",
    latex_cmd := "latex -interaction nonstopmode -halt-on-error",
    dvisvgm_cmd := "dvisvgm --no-fonts --exact-bbox", scale := 1,
    svgo_cmd := svgo_cmd, svgo_config := default_svgo_config,
    scour_cmd := scour_cmd, optimizer := "none", libgs := none }

/-- A raw SVG artifact as dvisvgm would leave it. -/
def fixRaw : SvgDoc :=
  { comments := ["Generated by dvisvgm"], attrs := [("viewBox", "0 0 1 1")], content := "BODY" }

/-- A world in which every tool succeeds; the diagnostic stream reports a
1pt × 2pt box of depth 1pt. -/
def fixWorld : World :=
  { latexOutcome := .exited 0 "" "", dvisvgmOutcome := .exited 0 "" "pre 1pt x 2pt, depth=1pt post",
    rawSvg := fixRaw, scourOutcome := .exited 0 "" "", scourOutput := "SCOURED",
    svgoOutcome := .exited 0 "" "", svgoOutput := "SVGOED", pfxChoice := fun _ => 0 }

/-! ## Claims -/

/-- Claim C2: every raw measurement `r` parsed from the diagnostic stream is
converted to `r / fontsize * 1.00375` font-relative units; `get_size` applies
this same `convert` to width and height and `get_measure` applies the
identical `convert` to depth; and a raw measurement of `fontsize * k`
typesetting points converts to exactly `k * 1.00375` for positive `k`. -/
theorem claim_C2_unit_conversion (fs k : ℚ) (hfs : 0 < fs) :
    (∀ r : ℚ, convert fs r = r / fs * (100375 / 100000)) ∧
    (0 < k → convert fs (fs * k) = k * (100375 / 100000)) ∧
    (∀ (out : String) (wv hv : ℚ), get_size fs out = .ok (some wv, some hv) →
      ∃ g1 g2 r1 r2, searchSizeAux none out.data = some (g1, g2) ∧
        pyFloat g1 = some r1 ∧ pyFloat g2 = some r2 ∧
        wv = convert fs r1 ∧ hv = convert fs r2) ∧
    (∀ (out name : String) (dv : ℚ), get_measure fs out name = .ok (some dv) →
      ∃ g r0, searchMeasureAux (name ++ "=").data none out.data = some g ∧
        pyFloat g = some r0 ∧ dv = convert fs r0) := by
  refine ⟨fun r => rfl, fun hk => ?_, fun out wv hv h => get_size_ok_inv h,
    fun out name dv h => get_measure_ok_inv h⟩
  unfold convert scaling
  rw [mul_comm fs k, mul_div_assoc, div_self (ne_of_gt hfs), mul_one]

unseal Rat.add Rat.mul Rat.inv Rat.sub in
theorem claim_C2_witness :
    (0 : ℚ) < 12 ∧ convert 12 5 = 5 / 12 * (100375 / 100000) ∧
    convert 12 (12 * 2) = 2 * (100375 / 100000) :=
  ⟨by decide, (claim_C2_unit_conversion 12 2 (by decide)).1 5,
    (claim_C2_unit_conversion 12 2 (by decide)).2.1 (by decide)⟩

/-- Claim C4: if the diagnostic stream has no `depth=VALUEpt` token,
`get_measure` yields `none`, the depth defaults to exactly `0`, and every
successful conversion reports `valign = 0`; the result record carries a
`valign` field by construction, so it is never null and never omitted. -/
theorem claim_C4_missing_depth_is_zero
    (code : String) (p : Params) (osEnv : List (String × String)) (w : World)
    (o e : String) (r : ConvResult)
    (hD : w.dvisvgmOutcome = .exited 0 o e)
    (hnd : searchMeasureAux (("depth=" : String)).data none e.data = none)
    (hr : (latex2svg code p osEnv w).result = .ok r) :
    get_measure p.fontsize e "depth" = .ok none ∧ r.valign = 0 := by
  have hm0 : get_measure p.fontsize e "depth" = .ok none := get_measure_none hnd
  refine ⟨hm0, ?_⟩
  obtain ⟨lo', le', o', e', wv', hv', dOpt', hL', hD', hS', hM', hva, -, -, -⟩ :=
    latex2svg_ok_inv hr
  rw [hD] at hD'
  have hoe : o = o' ∧ e = e' := by simpa using hD'
  obtain ⟨rfl, rfl⟩ := hoe
  rw [hm0] at hM'
  have hdn : dOpt' = none := by simpa using hM'.symm
  rw [hva, hdn]
  simp [round6_zero]

/-- World without a depth token on the diagnostic stream. -/
def fixWorldNoDepth : World :=
  { fixWorld with dvisvgmOutcome := .exited 0 "" "sz 1pt x 2pt end" }

unseal Rat.add Rat.mul Rat.inv Rat.sub in
theorem claim_C4_witness :
    get_measure fixParams.fontsize "sz 1pt x 2pt end" "depth" = .ok none ∧
    (⟨serializeSvg (injectSvg fixRaw (convert 12 1) (convert 12 2) 0), round6 (-(0 : ℚ)),
      round6 (convert 12 1), round6 (convert 12 2)⟩ : ConvResult).valign = 0 :=
  claim_C4_missing_depth_is_zero "x" fixParams [] fixWorldNoDepth "" "sz 1pt x 2pt end"
    ⟨serializeSvg (injectSvg fixRaw (convert 12 1) (convert 12 2) 0), round6 (-(0 : ℚ)),
      round6 (convert 12 1), round6 (convert 12 2)⟩ rfl (by decide) (by decide)

/-- Claim C8: with optimizer selector "none" no optimizer is invoked (exactly
the latex and dvisvgm subprocesses run) and the returned graphic text is
byte-identical to the post-injection `code.svg` artifact. -/
theorem claim_C8_optimizer_none_identity
    (code : String) (p : Params) (osEnv : List (String × String)) (w : World)
    (lo le o e : String) (wv hv : ℚ) (dOpt : Option ℚ)
    (hL : w.latexOutcome = .exited 0 lo le)
    (hD : w.dvisvgmOutcome = .exited 0 o e)
    (hS : get_size p.fontsize e = .ok (some wv, some hv))
    (hM : get_measure p.fontsize e "depth" = .ok dOpt)
    (hO : p.optimizer = "none") :
    (latex2svg code p osEnv w).result = .ok
      ⟨serializeSvg (injectSvg w.rawSvg wv hv (dOpt.getD 0)),
        round6 (-(dOpt.getD 0)), round6 wv, round6 hv⟩ ∧
    ("code.svg", serializeSvg (injectSvg w.rawSvg wv hv (dOpt.getD 0))) ∈
      (latex2svg code p osEnv w).writes ∧
    (latex2svg code p osEnv w).runs.length = 2 := by
  rw [latex2svg_none_eval code p osEnv w lo le o e wv hv dOpt hL hD hS hM hO]
  exact ⟨rfl, by simp [mkOut], rfl⟩

unseal Rat.add Rat.mul Rat.inv Rat.sub in
theorem claim_C8_witness :
    (latex2svg "x" fixParams [] fixWorld).result = .ok
      ⟨serializeSvg (injectSvg fixWorld.rawSvg (convert 12 1) (convert 12 2)
        ((some (convert 12 1)).getD 0)), round6 (-((some (convert 12 1)).getD 0)),
        round6 (convert 12 1), round6 (convert 12 2)⟩ ∧
    ("code.svg", serializeSvg (injectSvg fixWorld.rawSvg (convert 12 1) (convert 12 2)
      ((some (convert 12 1)).getD 0))) ∈ (latex2svg "x" fixParams [] fixWorld).writes ∧
    (latex2svg "x" fixParams [] fixWorld).runs.length = 2 :=
  claim_C8_optimizer_none_identity "x" fixParams [] fixWorld "" "" ""
    "pre 1pt x 2pt, depth=1pt post" (convert 12 1) (convert 12 2) (some (convert 12 1))
    rfl rfl (by decide) (by decide) rfl

/-- Claim C1: when the diagnostic stream has no parsable size token, the
pipeline fails — realised as the unhandled TypeError from formatting the
missing width (or the ValueError from an unparsable depth token, both
measurement-parse failures, distinct from the missing-executable and
tool-failure kinds) — exactly two subprocesses have been invoked (no
optimizer), and no SVG artifact is written (no attribute rewriting). -/
theorem claim_C1_no_size_token_aborts
    (code : String) (p : Params) (osEnv : List (String × String)) (w : World)
    (lo le o e : String)
    (hL : w.latexOutcome = .exited 0 lo le)
    (hD : w.dvisvgmOutcome = .exited 0 o e)
    (hns : searchSizeAux none e.data = none) :
    resultParseCrash (latex2svg code p osEnv w) = true ∧
    (latex2svg code p osEnv w).runs.length = 2 ∧
    (latex2svg code p osEnv w).writes.map Prod.fst = ["code.tex"] := by
  have hS : get_size p.fontsize e = .ok (none, none) := get_size_none hns
  cases hM : get_measure p.fontsize e "depth" with
  | ok dOpt =>
    rw [latex2svg_noSize_eval code p osEnv w lo le o e dOpt hL hD hS hM]
    exact ⟨rfl, rfl, rfl⟩
  | error ex =>
    obtain ⟨a, ha⟩ := get_measure_error_inv hM
    rw [latex2svg_measureError_eval code p osEnv w lo le o e none none ex hL hD hS hM]
    refine ⟨?_, rfl, rfl⟩
    rw [ha]
    rfl

/-- World whose diagnostic stream has no parsable size token. -/
def fixWorldNoSize : World :=
  { fixWorld with dvisvgmOutcome := .exited 0 "" "no size in here" }

theorem claim_C1_witness :
    resultParseCrash (latex2svg "x" fixParams [] fixWorldNoSize) = true ∧
    (latex2svg "x" fixParams [] fixWorldNoSize).runs.length = 2 ∧
    (latex2svg "x" fixParams [] fixWorldNoSize).writes.map Prod.fst = ["code.tex"] :=
  claim_C1_no_size_token_aborts "x" fixParams [] fixWorldNoSize "" "" "" "no size in here"
    rfl rfl (by decide)

/-- Claim C6 (amended): for every successful conversion with positive
fontsize, the returned width and height are non-negative and the returned
width, height and valign are all exact multiples of 10⁻⁶ (rounded to six
decimal digits).  The depth measurement, however, may be negative (see the
counterexample), so non-negativity holds for width and height only. -/
theorem claim_C6_width_height_nonneg_rounded
    (code : String) (p : Params) (osEnv : List (String × String)) (w : World)
    (r : ConvResult) (hfs : 0 < p.fontsize)
    (hr : (latex2svg code p osEnv w).result = .ok r) :
    0 ≤ r.width ∧ 0 ≤ r.height ∧
    (∃ a : ℤ, r.width = (a : ℚ) / 1000000) ∧ (∃ b : ℤ, r.height = (b : ℚ) / 1000000) ∧
    (∃ z : ℤ, r.valign = (z : ℚ) / 1000000) := by
  obtain ⟨lo, le, o, e, wv, hv, dOpt, -, -, hS, hM, hva, hw, hh, -⟩ := latex2svg_ok_inv hr
  obtain ⟨hw0, hh0⟩ := get_size_nonneg hfs hS
  refine ⟨?_, ?_, ?_, ?_, ?_⟩
  · rw [hw]; exact round6_nonneg hw0
  · rw [hh]; exact round6_nonneg hh0
  · rw [hw]; exact round6_denom wv
  · rw [hh]; exact round6_denom hv
  · rw [hva]; exact round6_denom _

unseal Rat.add Rat.mul Rat.inv Rat.sub in
theorem claim_C6_witness :
    (0 : ℚ) ≤ round6 (convert 12 1) ∧ (0 : ℚ) ≤ round6 (convert 12 2) :=
  ⟨(claim_C6_width_height_nonneg_rounded "x" fixParams [] fixWorld
      ⟨serializeSvg (injectSvg fixRaw (convert 12 1) (convert 12 2) (convert 12 1)),
        round6 (-(convert 12 1)), round6 (convert 12 1), round6 (convert 12 2)⟩
      (by decide) (by decide)).1,
    (claim_C6_width_height_nonneg_rounded "x" fixParams [] fixWorld
      ⟨serializeSvg (injectSvg fixRaw (convert 12 1) (convert 12 2) (convert 12 1)),
        round6 (-(convert 12 1)), round6 (convert 12 1), round6 (convert 12 2)⟩
      (by decide) (by decide)).2.1⟩

/-- World whose diagnostic stream reports a negative depth, which the
`[0-9.e-]` character class of `get_measure` accepts. -/
def fixWorldNegDepth : World :=
  { fixWorld with dvisvgmOutcome := .exited 0 "" "sz 2pt x 3pt, depth=-1pt end" }

unseal Rat.add Rat.mul Rat.inv Rat.sub in
/-- Claim C6 counterexample: a successful conversion whose parsed depth
measurement is negative (`depth=-1pt` parses to −1.00375/12 < 0), refuting
"the three measurements (width, height, depth) are non-negative". -/
theorem claim_C6_counterexample :
    get_measure fixParams.fontsize "sz 2pt x 3pt, depth=-1pt end" "depth" =
      .ok (some (convert 12 (-1))) ∧
    convert 12 (-1) < 0 ∧
    resValign (latex2svg "x" fixParams [] fixWorldNegDepth) =
      some (round6 (-(convert 12 (-1)))) ∧
    (0 : ℚ) < round6 (-(convert 12 (-1))) := by
  refine ⟨by decide, by decide, by decide, by decide⟩

/-- Claim C3 (amended): for every successful conversion, the returned
`valign` equals the negated converted depth *rounded to six decimal digits*
(`round(-depth, 6)`, not the exact negation — see the counterexample), and
the style attribute injected on the root SVG element is exactly
`vertical-align:` followed by the negated depth formatted to six decimals
and the `em` suffix. -/
theorem claim_C3_valign_rounded_negated_depth
    (code : String) (p : Params) (osEnv : List (String × String)) (w : World)
    (lo le o e : String) (wv hv : ℚ) (dOpt : Option ℚ) (r : ConvResult)
    (hL : w.latexOutcome = .exited 0 lo le)
    (hD : w.dvisvgmOutcome = .exited 0 o e)
    (hS : get_size p.fontsize e = .ok (some wv, some hv))
    (hM : get_measure p.fontsize e "depth" = .ok dOpt)
    (hr : (latex2svg code p osEnv w).result = .ok r) :
    r.valign = round6 (-(dOpt.getD 0)) ∧
    getAttr (injectSvg w.rawSvg wv hv (dOpt.getD 0)).attrs "style" =
      some ("vertical-align:" ++ fmt6 (-(dOpt.getD 0)) ++ "em") ∧
    ("code.svg", serializeSvg (injectSvg w.rawSvg wv hv (dOpt.getD 0))) ∈
      (latex2svg code p osEnv w).writes := by
  obtain ⟨lo', le', o', e', wv', hv', dOpt', hL', hD', hS', hM', hva, -, -, hmem⟩ :=
    latex2svg_ok_inv hr
  rw [hD] at hD'
  obtain ⟨rfl, rfl⟩ : o = o' ∧ e = e' := by simpa using hD'
  rw [hS] at hS'
  obtain ⟨rfl, rfl⟩ : wv = wv' ∧ hv = hv' := by simpa using hS'
  rw [hM] at hM'
  obtain rfl : dOpt = dOpt' := by simpa using hM'
  refine ⟨hva, ?_, hmem⟩
  simp only [injectSvg]
  exact getAttr_updateAssoc _ "style" _

unseal Rat.add Rat.mul Rat.inv Rat.sub in
theorem claim_C3_witness :
    round6 (-(convert 12 1)) = round6 (-((some (convert 12 1)).getD 0)) ∧
    getAttr (injectSvg fixWorld.rawSvg (convert 12 1) (convert 12 2)
        ((some (convert 12 1)).getD 0)).attrs "style" =
      some ("vertical-align:" ++ fmt6 (-((some (convert 12 1)).getD 0)) ++ "em") ∧
    ("code.svg", serializeSvg (injectSvg fixWorld.rawSvg (convert 12 1) (convert 12 2)
      ((some (convert 12 1)).getD 0))) ∈ (latex2svg "x" fixParams [] fixWorld).writes := by
  have h := claim_C3_valign_rounded_negated_depth "x" fixParams [] fixWorld "" "" ""
    "pre 1pt x 2pt, depth=1pt post" (convert 12 1) (convert 12 2) (some (convert 12 1))
    ⟨serializeSvg (injectSvg fixRaw (convert 12 1) (convert 12 2) (convert 12 1)),
      round6 (-(convert 12 1)), round6 (convert 12 1), round6 (convert 12 2)⟩
    rfl rfl (by decide) (by decide) (by decide)
  exact ⟨by decide, h.2.1, h.2.2⟩

unseal Rat.add Rat.mul Rat.inv Rat.sub in
/-- Claim C3 counterexample: with a raw depth of 1pt at fontsize 12, the
converted depth is 1.00375/12 = 0.0836458333…, whose negation is not
representable in six decimals; the returned `valign` is the *rounded* value
−0.083646 and differs from the exact negated depth −1.00375/12.  So "valign
equals the negation of the converted depth" is false as stated. -/
theorem claim_C3_counterexample :
    resValign (latex2svg "x" fixParams [] fixWorld) = some (-(41823 / 500000 : ℚ)) ∧
    -(41823 / 500000 : ℚ) ≠ -(convert 12 1) := by
  refine ⟨by decide, by decide⟩

/-- Claim C7 counterexample: Python's `str.replace` substitutes every
occurrence, not "exactly once": on a template containing the `code`
placeholder twice, the assembler substitutes both, while a
substitute-exactly-once assembler (modelled from the spec's words) touches
only the first occurrence, and the two outputs differ. -/
theorem claim_C7_counterexample :
    assemble "\x7b\x7b code \x7d\x7d\x7b\x7b code \x7d\x7d" "" "" "x" = "xx" ∧
    assembleOnce "\x7b\x7b code \x7d\x7d\x7b\x7b code \x7d\x7d" "" "" "x" =
      "x\x7b\x7b code \x7d\x7d" ∧
    ("xx" : String) ≠ "x\x7b\x7b code \x7d\x7d" :=
  ⟨by decide, by decide, by decide⟩

/-- Claim C7 (amended): the Document Assembler is pure sequential string
substitution — every occurrence of `{{ preamble }}`, then of
`{{ fontsize }}`, then of `{{ code }}` is replaced, with no validation of
the fragment.  When each placeholder occurs exactly once at its step (the
hypotheses give the unique occurrence and the absence of further
occurrences), it is substituted exactly once, giving the spec's contract. -/
theorem claim_C7_assembler_substitution
    (t p fsS c : String) (l1 r1 l2 r2 l3 r3 : List Char)
    (h1 : t.data = l1 ++ markPre.data ++ r1)
    (h1l : ∀ i, i < l1.length →
      markPre.data.isPrefixOf ((l1 ++ markPre.data ++ r1).drop i) = false)
    (h1r : occursList markPre.data r1 = false)
    (h2 : l1 ++ p.data ++ r1 = l2 ++ markFs.data ++ r2)
    (h2l : ∀ i, i < l2.length →
      markFs.data.isPrefixOf ((l2 ++ markFs.data ++ r2).drop i) = false)
    (h2r : occursList markFs.data r2 = false)
    (h3 : l2 ++ fsS.data ++ r2 = l3 ++ markCode.data ++ r3)
    (h3l : ∀ i, i < l3.length →
      markCode.data.isPrefixOf ((l3 ++ markCode.data ++ r3).drop i) = false)
    (h3r : occursList markCode.data r3 = false) :
    (assemble t p fsS c).data = l3 ++ c.data ++ r3 := by
  have e1 : replList markPre.data p.data t.data = l1 ++ p.data ++ r1 := by
    rw [h1, replList_split p.data (by decide) l1 r1 h1l, replList_no_occurs p.data h1r]
  have e2 : replList markFs.data fsS.data (l1 ++ p.data ++ r1) = l2 ++ fsS.data ++ r2 := by
    rw [h2, replList_split fsS.data (by decide) l2 r2 h2l, replList_no_occurs fsS.data h2r]
  have e3 : replList markCode.data c.data (l2 ++ fsS.data ++ r2) = l3 ++ c.data ++ r3 := by
    rw [h3, replList_split c.data (by decide) l3 r3 h3l, replList_no_occurs c.data h3r]
  show replList markCode.data c.data
    (replList markFs.data fsS.data (replList markPre.data p.data t.data)) = _
  rw [e1, e2, e3]

theorem claim_C7_witness :
    (assemble "A\x7b\x7b preamble \x7d\x7dB\x7b\x7b fontsize \x7d\x7dC\x7b\x7b code \x7d\x7dD"
      "P" "12" "x").data = ("APB12CxD" : String).data :=
  claim_C7_assembler_substitution
    "A\x7b\x7b preamble \x7d\x7dB\x7b\x7b fontsize \x7d\x7dC\x7b\x7b code \x7d\x7dD"
    "P" "12" "x"
    ("A".data) ("B\x7b\x7b fontsize \x7d\x7dC\x7b\x7b code \x7d\x7dD".data)
    ("APB".data) ("C\x7b\x7b code \x7d\x7dD".data)
    ("APB12C".data) ("D".data)
    (by decide) (by decide) (by decide) (by decide) (by decide) (by decide)
    (by decide) (by decide) (by decide)

/-- Claim C5: every external-tool invocation fails in exactly one of two
distinguishable ways — an absent executable yields the RuntimeError naming
that specific tool, and a non-zero exit yields the CalledProcessError
carrying the captured stdout/stderr unchanged — and in either case the
pipeline aborts immediately: no further subprocess is invoked (no local
recovery, no retry). -/
theorem claim_C5_tool_failure_kinds
    (code : String) (p : Params) (osEnv : List (String × String)) (w : World) :
    (w.latexOutcome = .notFound →
      (latex2svg code p osEnv w).result = .error (.runtimeError "latex not found") ∧
      (latex2svg code p osEnv w).runs.length = 1) ∧
    (∀ (rc : Int) (out err : String), w.latexOutcome = .exited rc out err → rc ≠ 0 →
      (latex2svg code p osEnv w).result =
        .error (.calledProcessError (p.latex_cmd ++ " code.tex") rc out err) ∧
      (latex2svg code p osEnv w).runs.length = 1) ∧
    (∀ (lo le : String), w.latexOutcome = .exited 0 lo le → w.dvisvgmOutcome = .notFound →
      (latex2svg code p osEnv w).result = .error (.runtimeError "dvisvgm not found") ∧
      (latex2svg code p osEnv w).runs.length = 2) ∧
    (∀ (lo le : String) (rc : Int) (out err : String),
      w.latexOutcome = .exited 0 lo le → w.dvisvgmOutcome = .exited rc out err → rc ≠ 0 →
      (latex2svg code p osEnv w).result =
        .error (.calledProcessError
          (p.dvisvgm_cmd ++ " --scale=" ++ fmt6 p.scale ++ " code.dvi") rc out err) ∧
      (latex2svg code p osEnv w).runs.length = 2) ∧
    (∀ (lo le o e : String) (wv hv : ℚ) (dOpt : Option ℚ),
      w.latexOutcome = .exited 0 lo le → w.dvisvgmOutcome = .exited 0 o e →
      get_size p.fontsize e = .ok (some wv, some hv) →
      get_measure p.fontsize e "depth" = .ok dOpt → p.optimizer = "scour" →
      (w.scourOutcome = .notFound →
        (latex2svg code p osEnv w).result = .error (.runtimeError "scour not found") ∧
        (latex2svg code p osEnv w).runs.length = 3) ∧
      (∀ (rc : Int) (so se : String), w.scourOutcome = .exited rc so se → rc ≠ 0 →
        (latex2svg code p osEnv w).result =
          .error (.calledProcessError (buildScourCmd p (genPfx w.pfxChoice)) rc so se) ∧
        (latex2svg code p osEnv w).runs.length = 3)) ∧
    (∀ (lo le o e : String) (wv hv : ℚ) (dOpt : Option ℚ),
      w.latexOutcome = .exited 0 lo le → w.dvisvgmOutcome = .exited 0 o e →
      get_size p.fontsize e = .ok (some wv, some hv) →
      get_measure p.fontsize e "depth" = .ok dOpt → p.optimizer = "svgo" →
      (w.svgoOutcome = .notFound →
        (latex2svg code p osEnv w).result = .error (.runtimeError "svgo not found") ∧
        (latex2svg code p osEnv w).runs.length = 3) ∧
      (∀ (rc : Int) (so se : String), w.svgoOutcome = .exited rc so se → rc ≠ 0 →
        (latex2svg code p osEnv w).result =
          .error (.calledProcessError (buildSvgoCmd p) rc so se) ∧
        (latex2svg code p osEnv w).runs.length = 3)) := by
  refine ⟨fun hL => ?_, fun rc out err hL hrc => ?_, fun lo le hL hD => ?_,
    fun lo le rc out err hL hD hrc => ?_,
    fun lo le o e wv hv dOpt hL hD hS hM hO => ⟨fun hSc => ?_, fun rc so se hSc hrc => ?_⟩,
    fun lo le o e wv hv dOpt hL hD hS hM hO => ⟨fun hSv => ?_, fun rc so se hSv hrc => ?_⟩⟩
  · rw [latex2svg_latexNotFound_eval code p osEnv w hL]; exact ⟨rfl, rfl⟩
  · rw [latex2svg_latexFail_eval code p osEnv w rc out err hL hrc]; exact ⟨rfl, rfl⟩
  · rw [latex2svg_dvisvgmNotFound_eval code p osEnv w lo le hL hD]; exact ⟨rfl, rfl⟩
  · rw [latex2svg_dvisvgmFail_eval code p osEnv w lo le rc out err hL hD hrc]
    exact ⟨rfl, rfl⟩
  · rw [latex2svg_scourNotFound_eval code p osEnv w lo le o e wv hv dOpt hL hD hS hM hO hSc]
    exact ⟨rfl, rfl⟩
  · rw [latex2svg_scourFail_eval code p osEnv w lo le o e rc so se wv hv dOpt
      hL hD hS hM hO hSc hrc]
    exact ⟨rfl, rfl⟩
  · rw [latex2svg_svgoNotFound_eval code p osEnv w lo le o e wv hv dOpt hL hD hS hM hO hSv]
    exact ⟨rfl, rfl⟩
  · rw [latex2svg_svgoFail_eval code p osEnv w lo le o e rc so se wv hv dOpt
      hL hD hS hM hO hSv hrc]
    exact ⟨rfl, rfl⟩

/-- World in which the latex executable is absent. -/
def fixWorldLatexMissing : World := { fixWorld with latexOutcome := .notFound }

theorem claim_C5_witness :
    (latex2svg "x" fixParams [] fixWorldLatexMissing).result =
      .error (.runtimeError "latex not found") ∧
    (latex2svg "x" fixParams [] fixWorldLatexMissing).runs.length = 1 :=
  (claim_C5_tool_failure_kinds "x" fixParams [] fixWorldLatexMissing).1 rfl

/-- Claim C10: the pipeline returns `os.environ` and the params bundle
unchanged on every path (no mutation of the host environment, params
read-only), the optional libgs path is injected only into the copied
environment handed to the subprocess invocations (`latex` inherits; the
others receive the copy), and that copy extends `osEnv` with `LIBGS` exactly
when a non-empty libgs is configured. -/
theorem claim_C10_environment_isolation
    (code : String) (p : Params) (osEnv : List (String × String)) (w : World) :
    (latex2svg code p osEnv w).osEnvFinal = osEnv ∧
    (latex2svg code p osEnv w).paramsFinal = p ∧
    (∀ run ∈ (latex2svg code p osEnv w).runs,
      run.envPassed = none ∨ run.envPassed = some (libgsEnv p osEnv)) ∧
    (∀ g : String, p.libgs = some g → g ≠ "" →
      libgsEnv p osEnv = updateAssoc osEnv "LIBGS" g) ∧
    (p.libgs = none → libgsEnv p osEnv = osEnv) := by
  refine ⟨?_, ?_, ?_, fun g hg hne => ?_, fun hg => ?_⟩
  · unfold latex2svg
    simp only []
    repeat' split
    all_goals rfl
  · unfold latex2svg
    simp only []
    repeat' split
    all_goals rfl
  · unfold latex2svg
    simp only [optimizerBranch]
    repeat' split
    all_goals
      intro run hrun
      simp only [mkOut, List.mem_cons, List.mem_append, List.not_mem_nil, or_false] at hrun
      first
      | (obtain rfl := hrun; simp)
      | (obtain rfl | rfl := hrun <;> simp)
      | (obtain (rfl | rfl) | rfl := hrun <;> simp)
  · simp [libgsEnv, hg, hne]
  · simp [libgsEnv, hg]

theorem claim_C10_witness :
    (latex2svg "x" fixParams [] fixWorldLatexMissing).osEnvFinal = [] ∧
    (latex2svg "x" fixParams [] fixWorldLatexMissing).paramsFinal = fixParams ∧
    libgsEnv fixParams [] = [] := by
  have h := claim_C10_environment_isolation "x" fixParams [] fixWorldLatexMissing
  exact ⟨h.1, h.2.1, h.2.2.2.2 rfl⟩

/-! ## The default command/config split around the prefix placeholder -/

/-- Front of `scour_cmd` up to the opening quote of `--shorten-ids-prefix=`. -/
def scourCmdL : String := "scour --shorten-ids --shorten-ids-prefix=\x22"

/-- Tail of `scour_cmd` after the prefix placeholder, before file substitution. -/
def scourMid0 : String :=
  "\x22 --no-line-breaks --remove-metadata --enable-comment-stripping --strip-xml-prolog -i \x7b\x7b infile \x7d\x7d -o \x7b\x7b outfile \x7d\x7d"

/-- Tail `scourMid0` after the infile substitution. -/
def scourMid1 : String :=
  "\x22 --no-line-breaks --remove-metadata --enable-comment-stripping --strip-xml-prolog -i code.svg -o \x7b\x7b outfile \x7d\x7d"

/-- Tail of `scour_cmd` after the prefix placeholder with both files substituted. -/
def scourCmdR : String :=
  "\x22 --no-line-breaks --remove-metadata --enable-comment-stripping --strip-xml-prolog -i code.svg -o optimized.svg"

/-- Front of `default_svgo_config` up to the opening quote of the `prefix:` value. -/
def svgoConfL : String :=
  "\nmodule.exports = \x7b\n  plugins: [\n    \x7b\n      // use default preset (almost)\n      name: \x27preset-default\x27,\n      params: \x7b\n        overrides: \x7b\n          // viewbox required to resize SVGs with CSS, disable removal\n          removeViewBox: false,\n        \x7d,\n      \x7d,\n      // enable prefixIds\n      name: \x27prefixIds\x27,\n      params: \x7b\n        prefix: \x27"

/-- Tail of `default_svgo_config` after the prefix placeholder (note the fixed
underscore delimiter `delim: '_'` that follows). -/
def svgoConfR : String :=
  "\x27,\n        delim: \x27_\x27,\n      \x7d,\n    \x7d,\n  ],\n\x7d;\n"

set_option maxRecDepth 8000 in
theorem buildScourCmd_default (p : Params) (hsc : p.scour_cmd = scour_cmd) (pfx : String)
    (hal : ∀ c ∈ pfx.data, c.isAlpha = true) :
    buildScourCmd p pfx = scourCmdL ++ pfx ++ "_" ++ scourCmdR := by
  have hnbP : '\x7b' ∉ (pfx ++ "_").data := by
    rw [string_data_append]
    intro hm
    rcases List.mem_append.mp hm with h | h
    · simpa using hal _ h
    · simp at h
  have hnbL : '\x7b' ∉ scourCmdL.data := by decide
  have hnbLP : '\x7b' ∉ scourCmdL.data ++ (pfx ++ "_").data := by
    intro hm
    rcases List.mem_append.mp hm with h | h
    · exact hnbL h
    · exact hnbP h
  have hd0 : scour_cmd.data = scourCmdL.data ++ (markPfx.data ++ scourMid0.data) := by decide
  have e1 : replList markPfx.data (pfx ++ "_").data scour_cmd.data
      = scourCmdL.data ++ ((pfx ++ "_").data ++ scourMid0.data) := by
    rw [hd0,
      replList_append_left _ (show markPfx.data.head? = some '\x7b' from rfl) _ _ hnbL,
      replList_at_match _ (by decide),
      replList_no_occurs _ (show occursList markPfx.data scourMid0.data = false by decide)]
  have e2 : replList markIn.data ("code.svg" : String).data
      (scourCmdL.data ++ ((pfx ++ "_").data ++ scourMid0.data))
      = scourCmdL.data ++ ((pfx ++ "_").data ++ scourMid1.data) := by
    rw [show scourCmdL.data ++ ((pfx ++ "_").data ++ scourMid0.data)
        = (scourCmdL.data ++ (pfx ++ "_").data) ++ scourMid0.data from
        (List.append_assoc _ _ _).symm,
      replList_append_left _ (show markIn.data.head? = some '\x7b' from rfl) _ _ hnbLP,
      show replList markIn.data ("code.svg" : String).data scourMid0.data
        = scourMid1.data by decide,
      List.append_assoc]
  have e3 : replList markOutf.data ("optimized.svg" : String).data
      (scourCmdL.data ++ ((pfx ++ "_").data ++ scourMid1.data))
      = scourCmdL.data ++ ((pfx ++ "_").data ++ scourCmdR.data) := by
    rw [show scourCmdL.data ++ ((pfx ++ "_").data ++ scourMid1.data)
        = (scourCmdL.data ++ (pfx ++ "_").data) ++ scourMid1.data from
        (List.append_assoc _ _ _).symm,
      replList_append_left _ (show markOutf.data.head? = some '\x7b' from rfl) _ _ hnbLP,
      show replList markOutf.data ("optimized.svg" : String).data scourMid1.data
        = scourCmdR.data by decide,
      List.append_assoc]
  unfold buildScourCmd pyReplace
  rw [hsc]
  apply string_eq_of_data
  show replList markOutf.data _ (replList markIn.data _
    (replList markPfx.data (pfx ++ "_").data scour_cmd.data)) = _
  rw [e1, e2, e3]
  simp [string_data_append, List.append_assoc]

set_option maxRecDepth 8000 in
theorem buildSvgoConfig_default (p : Params) (hcf : p.svgo_config = default_svgo_config)
    (pfx : String) :
    buildSvgoConfig p pfx = svgoConfL ++ pfx ++ svgoConfR := by
  unfold buildSvgoConfig pyReplace
  rw [hcf]
  apply string_eq_of_data
  show replList markPfx.data pfx.data default_svgo_config.data = _
  have hd : default_svgo_config.data = svgoConfL.data ++ markPfx.data ++ svgoConfR.data := by
    decide
  rw [hd, replList_split pfx.data (by decide) svgoConfL.data svgoConfR.data (by decide),
    replList_no_occurs pfx.data (show occursList markPfx.data svgoConfR.data = false by decide)]
  simp [string_data_append, List.append_assoc]

/-- Claim C9: the generated identifier prefix is exactly 3 characters drawn
from the ASCII letters (so no character — in particular not the first — is a
digit), freshly derived from the call's random draws; with the default
commands the scour backend receives this prefix with an underscore appended
inside `--shorten-ids-prefix="…_"`, while the svgo backend receives the bare
prefix in its generated configuration, whose delimiter is the separate fixed
`delim: '_'` entry; the pipeline's scour invocation and svgo configuration
write use exactly `genPfx w.pfxChoice`. -/
theorem claim_C9_identifier_token
    (choice : Fin 3 → Fin 52) (code : String) (p : Params)
    (osEnv : List (String × String)) (w : World)
    (lo le o e so se : String) (wv hv : ℚ) (dOpt : Option ℚ)
    (hL : w.latexOutcome = .exited 0 lo le)
    (hD : w.dvisvgmOutcome = .exited 0 o e)
    (hS : get_size p.fontsize e = .ok (some wv, some hv))
    (hM : get_measure p.fontsize e "depth" = .ok dOpt) :
    ((genPfx choice).length = 3 ∧ (∀ c ∈ (genPfx choice).data, c.isAlpha = true) ∧
      (∀ c ∈ (genPfx choice).data, c.isDigit = false)) ∧
    (p.scour_cmd = scour_cmd →
      buildScourCmd p (genPfx w.pfxChoice) =
        scourCmdL ++ genPfx w.pfxChoice ++ "_" ++ scourCmdR) ∧
    (p.svgo_config = default_svgo_config →
      buildSvgoConfig p (genPfx w.pfxChoice) = svgoConfL ++ genPfx w.pfxChoice ++ svgoConfR ∧
      occursList ("delim: \x27_\x27" : String).data svgoConfR.data = true) ∧
    (p.optimizer = "scour" → w.scourOutcome = .exited 0 so se →
      (⟨buildScourCmd p (genPfx w.pfxChoice), some (libgsEnv p osEnv)⟩ : ToolRun) ∈
        (latex2svg code p osEnv w).runs) ∧
    (p.optimizer = "svgo" → w.svgoOutcome = .exited 0 so se →
      ("svgo.config.js", buildSvgoConfig p (genPfx w.pfxChoice)) ∈
        (latex2svg code p osEnv w).writes) := by
  refine ⟨⟨rfl, genPfx_alpha choice, genPfx_not_digit choice⟩,
    fun hsc => buildScourCmd_default p hsc _ (genPfx_alpha _),
    fun hcf => ⟨buildSvgoConfig_default p hcf _, by decide⟩,
    fun hO hSc => ?_, fun hO hSv => ?_⟩
  · rw [latex2svg_scour_eval code p osEnv w lo le o e so se wv hv dOpt hL hD hS hM hO hSc]
    simp [mkOut]
  · rw [latex2svg_svgo_eval code p osEnv w lo le o e so se wv hv dOpt hL hD hS hM hO hSv]
    simp [mkOut]

/-- Parameters selecting the scour optimizer. -/
def fixParamsScour : Params := { fixParams with optimizer := "scour" }

set_option maxRecDepth 8000 in
unseal Rat.add Rat.mul Rat.inv Rat.sub in
theorem claim_C9_witness :
    buildScourCmd fixParamsScour (genPfx fixWorld.pfxChoice) =
      scourCmdL ++ genPfx fixWorld.pfxChoice ++ "_" ++ scourCmdR ∧
    (⟨buildScourCmd fixParamsScour (genPfx fixWorld.pfxChoice),
        some (libgsEnv fixParamsScour [])⟩ : ToolRun) ∈
      (latex2svg "x" fixParamsScour [] fixWorld).runs := by
  have h := claim_C9_identifier_token fixWorld.pfxChoice "x" fixParamsScour [] fixWorld
    "" "" "" "pre 1pt x 2pt, depth=1pt post" "" "" (convert 12 1) (convert 12 2)
    (some (convert 12 1)) rfl rfl (by decide) (by decide)
  exact ⟨h.2.1 rfl, h.2.2.2.1 rfl rfl⟩
